import Mathlib

/-!
Verification development for the python amqp worker bridge.

The embedding follows src/src/main.rs. Interpreter-level services of the
dynamic engine (module compilation, value conversion on dictionary
insertion, credential resolution) are abstracted as an environment record
`PyEnv`; the script module entry point `process` is passed as a function
argument. Python values are modelled by the inductive `PyObj`; a python
dictionary is an insertion-ordered association list with overwriting
update, matching python dict semantics. A raised python exception is
modelled by `PyErr`, carrying the textual representation the host reads
back via repr and, when a traceback object is attached, the formatted
frame list as text (the host reads it via traceback.format_tb).
-/

namespace PyWorker

/-- A python value, as far as the worker marshals or inspects them. -/
inductive PyObj where
  | str : String → PyObj
  | int : Int → PyObj
  | bool : Bool → PyObj
  | list : List PyObj → PyObj
  | pyNone : PyObj

/-- A raised python exception as observed by the host: `reprText` models
the result of evaluating repr(error), `ptraceback` models the attached
traceback object, already rendered through traceback.format_tb and
stringified, when one is attached. -/
structure PyErr where
  reprText : String
  ptraceback : Option String
deriving DecidableEq

/-- A python dictionary: insertion-ordered association list. -/
abbrev PyDict := List (String × PyObj)

/-- Lookup in a python dictionary. -/
def dictLookup : PyDict → String → Option PyObj
  | [], _ => none
  | (k1, v) :: rest, k => if k1 = k then some v else dictLookup rest k

/-- Insertion into a python dictionary: overwrite in place when the key
exists, append otherwise (python dict update semantics). -/
def pyDictSet : PyDict → String → PyObj → PyDict
  | [], k, v => [(k, v)]
  | (k1, v1) :: rest, k, v =>
    if k1 = k then (k1, v) :: rest else (k1, v1) :: pyDictSet rest k v

/-- The lapin channel, opaque to the core; only its identity matters. -/
structure Channel where
  chanId : Nat

/-- A requirement payload, never inspected by the marshaller. -/
structure Requirement where
  paths : List String
deriving DecidableEq

/-- The amqp worker Parameter tagged union, as matched in
build_parameters: each variant carries an identifier, an optional default
and an optional supplied value. -/
inductive Parameter where
  | arrayOfStringsParam (id : String) (default : Option (List String)) (value : Option (List String))
  | booleanParam (id : String) (default : Option Bool) (value : Option Bool)
  | credentialParam (id : String) (default : Option String) (value : Option String)
  | integerParam (id : String) (default : Option Int) (value : Option Int)
  | requirementParam (id : String) (default : Option Requirement) (value : Option Requirement)
  | stringParam (id : String) (default : Option String) (value : Option String)
deriving DecidableEq

/-- The identifier of a parameter. -/
def Parameter.id : Parameter → String
  | .arrayOfStringsParam i _ _ => i
  | .booleanParam i _ _ => i
  | .credentialParam i _ _ => i
  | .integerParam i _ _ => i
  | .requirementParam i _ _ => i
  | .stringParam i _ _ => i

/-- Whether a supplied value is present. -/
def Parameter.hasValue : Parameter → Bool
  | .arrayOfStringsParam _ _ v => v.isSome
  | .booleanParam _ _ v => v.isSome
  | .credentialParam _ _ v => v.isSome
  | .integerParam _ _ v => v.isSome
  | .requirementParam _ _ v => v.isSome
  | .stringParam _ _ v => v.isSome

/-- Whether a default is present. -/
def Parameter.hasDefault : Parameter → Bool
  | .arrayOfStringsParam _ d _ => d.isSome
  | .booleanParam _ d _ => d.isSome
  | .credentialParam _ d _ => d.isSome
  | .integerParam _ d _ => d.isSome
  | .requirementParam _ d _ => d.isSome
  | .stringParam _ d _ => d.isSome

/-- Whether the parameter is a Requirement marker. -/
def Parameter.isRequirement : Parameter → Bool
  | .requirementParam _ _ _ => true
  | _ => false

/-- A job: identity plus its ordered parameter list. -/
structure Job where
  job_id : Nat
  parameters : List Parameter

/-- Terminal and initial job statuses used by the worker. -/
inductive JobStatus where
  | queued
  | completed
  | error
deriving DecidableEq

/-- The JobResult accumulator mutated by the core. -/
structure JobResult where
  destination_paths : List String
  status : JobStatus
  message : Option String
deriving DecidableEq

/-- Builder: set the status. -/
def JobResult.with_status (jr : JobResult) (s : JobStatus) : JobResult :=
  { jr with status := s }

/-- Builder: set the message. -/
def JobResult.with_message (jr : JobResult) (m : String) : JobResult :=
  { jr with message := some m }

/-- Builder: set the destination paths. -/
def JobResult.with_destination_paths (jr : JobResult) (ps : List String) : JobResult :=
  { jr with destination_paths := ps }

/-- The message error variant produced by process. -/
inductive MessageError where
  | processingError (r : JobResult)
deriving DecidableEq

/-- The progress callback handle passed into the script: shares the
channel and a clone of the job. -/
structure CallbackHandle where
  channel : Channel
  job : Job

/-- Abstracted dynamic engine and collaborator services:
`compile` models PyModule.from_code on the worker source (error carries
the diagnostic), `convFail` models a conversion failure of a value on
dictionary insertion (set_item returning Err), `requestValue` models
Credential.request_value against the credential collaborator. -/
structure PyEnv where
  compile : Except String Unit
  convFail : PyObj → Option PyErr
  requestValue : String → Job → Except String String

/-- Insertion of one entry into the parameter dictionary (set_item): fails when the dynamic engine
cannot convert the value, otherwise updates the dictionary. -/
def pySetItem (env : PyEnv) (d : PyDict) (k : String) (v : PyObj) : Except PyErr PyDict :=
  match env.convFail v with
  | some e => .error e
  | none => .ok (pyDictSet d k v)

/-- Value-over-default resolution: the if-let chain used in every arm of
build_parameters. -/
def resolved {α : Type} (value defaultV : Option α) : Option α :=
  match value with
  | some v => some v
  | none => defaultV

/-- One iteration of the build_parameters loop, one arm per Parameter
variant, mirroring the match in the source: scalar kinds marshal the
resolved value; Credential resolves the chosen key through the
collaborator and omits the parameter (continuing) on failure or when no
key is chosen; Requirement marshals nothing. -/
def buildParamStep (env : PyEnv) (job : Job) (d : PyDict) : Parameter → Except PyErr PyDict
  | .arrayOfStringsParam i dflt val =>
    match resolved val dflt with
    | some v => pySetItem env d i (.list (v.map .str))
    | none => .ok d
  | .booleanParam i dflt val =>
    match resolved val dflt with
    | some v => pySetItem env d i (.bool v)
    | none => .ok d
  | .credentialParam i dflt val =>
    match resolved val dflt with
    | some credentialKey =>
      match env.requestValue credentialKey job with
      | .ok retrievedValue => pySetItem env d i (.str retrievedValue)
      | .error _ => .ok d
    | none => .ok d
  | .integerParam i dflt val =>
    match resolved val dflt with
    | some v => pySetItem env d i (.int v)
    | none => .ok d
  | .requirementParam _ _ _ => .ok d
  | .stringParam i dflt val =>
    match resolved val dflt with
    | some v => pySetItem env d i (.str v)
    | none => .ok d

/-- The build_parameters loop over a parameter list, accumulating the
dictionary; the first insertion failure aborts with that error. -/
def buildParamsAux (env : PyEnv) (job : Job) : List Parameter → PyDict → Except PyErr PyDict
  | [], d => .ok d
  | p :: rest, d =>
    match buildParamStep env job d p with
    | .ok d2 => buildParamsAux env job rest d2
    | .error e => .error e

/-- The build_parameters operation: fold the marshalling step over the parameters of
the job, starting from the empty dictionary. -/
def build_parameters (env : PyEnv) (job : Job) : Except PyErr PyDict :=
  buildParamsAux env job job.parameters []

/-- Collect a list of python values as strings, all-or-nothing. -/
def collectPaths : List PyObj → Option (List String)
  | [] => some []
  | .str s :: rest => (collectPaths rest).map (fun l => s :: l)
  | _ => none

/-- Modelled from the spec: `get_destination_paths` lives in
src/helpers.rs, which is not among the sources. Per the spec, a return
value shaped as a sequence of path strings yields those paths in order;
any other shape yields nothing (and is not an error). -/
def get_destination_paths : PyObj → Option (List String)
  | .list items => collectPaths items
  | _ => none

/-- The observable outcome of one process invocation: a returned
JobResult, a returned typed error, or a rust panic escaping. -/
inductive ProcessOutcome where
  | panicked (msg : String)
  | ok (r : JobResult)
  | error (e : MessageError)
deriving DecidableEq

/-- The process invocation, mirroring the source: compile the module (panic on failure),
marshal the parameters (typed Error on failure, message the engine
textual representation of the error), unwrap the channel (panic when
none), construct the callback handle, call the script entry point, and
convert the dynamic result or exception into the typed outcome. The
no-traceback marker string reproduces the source literally, including
its spelling. -/
def process (env : PyEnv) (procFn : CallbackHandle → PyDict → Except PyErr PyObj)
    (channel : Option Channel) (job : Job) (job_result : JobResult) : ProcessOutcome :=
  match env.compile with
  | .error _ => .panicked "unable to create the python module"
  | .ok _ =>
    match build_parameters env job with
    | .error e =>
      .error (.processingError ((job_result.with_status .error).with_message e.reprText))
    | .ok list_of_parameters =>
      match channel with
      | none => .panicked "called Option::unwrap on a None value"
      | some ch =>
        match procFn ⟨ch, job⟩ list_of_parameters with
        | .ok response =>
          match get_destination_paths response with
          | some destination_paths =>
            .ok ((job_result.with_destination_paths destination_paths).with_status .completed)
          | none => .ok (job_result.with_status .completed)
        | .error e =>
          let stacktrace :=
            match e.ptraceback with
            | some tb => tb
            | none => "Unknown python error, no stackstrace"
          .error (.processingError ((job_result.with_status .error).with_message
            (e.reprText ++ "\n\nStacktrace:\n" ++ stacktrace)))

/-- Whether a Result is Ok. -/
def exceptIsOk {ε α : Type} : Except ε α → Bool
  | .ok _ => true
  | .error _ => false

/-- The publish_job_progression method of the callback handle: publish on
the shared channel, tagged with the wrapped job, and collapse the result
to a boolean. The publishing collaborator is passed as a function. -/
def CallbackHandle.publish_job_progression
    (publish : Channel → Job → Nat → Except String Unit)
    (self : CallbackHandle) (value : Nat) : Bool :=
  exceptIsOk (publish self.channel self.job value)

/-- A semantic version, numeric core. -/
structure Version where
  major : Nat
  minor : Nat
  patch : Nat
deriving DecidableEq

/-- Decimal digits to a natural number. -/
def digitsToNat (l : List Char) : Nat :=
  l.foldl (fun n c => 10 * n + (c.toNat - 48)) 0

/-- Parse a semver numeric identifier: a nonempty digit prefix without a
leading zero. Returns the number and the unconsumed characters. -/
def parseNumericId (cs : List Char) : Option (Nat × List Char) :=
  let digits := cs.takeWhile Char.isDigit
  let rest := cs.dropWhile Char.isDigit
  if digits.isEmpty then none
  else if 1 < digits.length ∧ digits.head? = some '0' then none
  else some (digitsToNat digits, rest)

/-- Characters allowed in a pre-release or build suffix. -/
def isIdentChar (c : Char) : Bool :=
  c.isAlphanum || c = '-' || c = '.' || c = '+'

/-- Model of the semver crate parser on its numeric core:
major.minor.patch, each a numeric identifier, optionally followed by a
pre-release or build suffix introduced by a hyphen or plus sign. -/
def semverParse (s : String) : Option Version :=
  match parseNumericId s.data with
  | none => none
  | some (major, rest1) =>
    match rest1 with
    | '.' :: rest2 =>
      match parseNumericId rest2 with
      | none => none
      | some (minor, rest3) =>
        match rest3 with
        | '.' :: rest4 =>
          match parseNumericId rest4 with
          | none => none
          | some (patch, rest5) =>
            match rest5 with
            | [] => some ⟨major, minor, patch⟩
            | c :: tail =>
              if (c = '-' ∨ c = '+') ∧ tail ≠ [] ∧ tail.all isIdentChar then
                some ⟨major, minor, patch⟩
              else none
        | _ => none
    | _ => none

/-- Outcome of a startup-time operation: a value, or a fatal abort of the
whole process (an expect panic at startup). -/
inductive StartupResult (α : Type) where
  | ok (a : α)
  | fatal (msg : String)
deriving DecidableEq

/-- The get_version operation: parse the text returned by the module get_version entry
point as a semantic version; a parse failure aborts startup with the
expect message from the source. The argument is the string already
retrieved from the module. -/
def get_version (versionText : String) : StartupResult Version :=
  match semverParse versionText with
  | some v => .ok v
  | none => .fatal "unable to parse version (please use SemVer format)"

/-- Whether the pattern list is a prefix of the text list. -/
def listPrefix : List Char → List Char → Bool
  | [], _ => true
  | _ :: _, [] => false
  | a :: as, b :: bs => (a == b) && listPrefix as bs

/-- Whether the pattern occurs in the text, scanning every suffix. -/
def containsSubAux (pat : List Char) : List Char → Bool
  | [] => listPrefix pat []
  | c :: rest => listPrefix pat (c :: rest) || containsSubAux pat rest

/-- Substring occurrence on strings. -/
def containsSub (s pat : String) : Bool :=
  containsSubAux pat.data s.data

/-- The marshalled image of the supplied value of a parameter, defined
solely from the value field (the default is never consulted): what the
dictionary must hold for that parameter after marshalling succeeds. A
Credential maps to the collaborator resolution of the supplied key, or
nothing when resolution fails; a Requirement never maps to anything. -/
def marshalOfValue (env : PyEnv) (job : Job) : Parameter → Option PyObj
  | .arrayOfStringsParam _ _ (some v) => some (.list (v.map .str))
  | .booleanParam _ _ (some v) => some (.bool v)
  | .credentialParam _ _ (some k) =>
    match env.requestValue k job with
    | .ok r => some (.str r)
    | .error _ => none
  | .integerParam _ _ (some v) => some (.int v)
  | .stringParam _ _ (some v) => some (.str v)
  | _ => none

/-- An engine where compilation and every conversion succeed and every
credential resolution fails. -/
def envOk : PyEnv := ⟨.ok (), fun _ => none, fun _ _ => .error "no credential store"⟩

/-- An engine where every value conversion on insertion fails. -/
def envFail : PyEnv :=
  ⟨.ok (), fun _ => some ⟨"TypeError: cannot convert", none⟩, fun _ _ => .error "no credential store"⟩

/-- An engine where the module does not compile. -/
def envBadCompile : PyEnv :=
  ⟨.error "SyntaxError: invalid syntax", fun _ => none, fun _ _ => .error "no credential store"⟩

/-- A concrete channel. -/
def chan0 : Channel := ⟨0⟩

/-- A freshly created job result accumulator. -/
def jrInit : JobResult := ⟨[], .queued, none⟩

/-- A job with no parameters. -/
def jobEmpty : Job := ⟨1, []⟩

/-- A job with one string parameter carrying both a value and a default. -/
def jobW2 : Job := ⟨2, [.stringParam "x" (some "dflt") (some "val")]⟩

/-- A job with one integer parameter carrying neither value nor default. -/
def jobW3 : Job := ⟨3, [.integerParam "n" none none]⟩

/-- A job with one boolean parameter carrying a value. -/
def jobW4 : Job := ⟨4, [.booleanParam "flag" none (some true)]⟩

/-- A job with one credential parameter carrying a value. -/
def jobW5 : Job := ⟨5, [.credentialParam "cred" none (some "KEY")]⟩

/-- A script entry point raising without an attached traceback. -/
def procRaises : CallbackHandle → PyDict → Except PyErr PyObj :=
  fun _ _ => .error ⟨"RuntimeError: boom", none⟩

/-- A script entry point raising with an attached traceback. -/
def procRaisesTb : CallbackHandle → PyDict → Except PyErr PyObj :=
  fun _ _ => .error ⟨"ValueError: bad input", some "  File worker.py, line 3, in process"⟩

/-- A script entry point returning a sequence of path strings. -/
def procReturnsPaths : CallbackHandle → PyDict → Except PyErr PyObj :=
  fun _ _ => .ok (.list [.str "/tmp/out.mov"])

theorem dictLookup_pyDictSet_self (d : PyDict) (k : String) (v : PyObj) :
    dictLookup (pyDictSet d k v) k = some v := by
  induction d with
  | nil => simp [pyDictSet, dictLookup]
  | cons kv rest ih =>
    obtain ⟨k1, v1⟩ := kv
    by_cases hk : k1 = k
    · simp [pyDictSet, dictLookup, hk]
    · simp [pyDictSet, dictLookup, hk, ih]

theorem dictLookup_pyDictSet_other (d : PyDict) (k k2 : String) (v : PyObj)
    (h : k ≠ k2) : dictLookup (pyDictSet d k v) k2 = dictLookup d k2 := by
  induction d with
  | nil => simp [pyDictSet, dictLookup, h]
  | cons kv rest ih =>
    obtain ⟨k1, v1⟩ := kv
    by_cases hk : k1 = k
    · subst hk
      simp [pyDictSet, dictLookup, h]
    · simp [pyDictSet, dictLookup, hk, ih]

theorem pySetItem_ok_lookup_self (env : PyEnv) (d d2 : PyDict) (k : String) (v : PyObj)
    (h : pySetItem env d k v = .ok d2) : dictLookup d2 k = some v := by
  unfold pySetItem at h
  cases hc : env.convFail v with
  | some e => rw [hc] at h; cases h
  | none =>
    rw [hc] at h
    cases h
    exact dictLookup_pyDictSet_self d k v

theorem pySetItem_ok_lookup_other (env : PyEnv) (d d2 : PyDict) (k k2 : String) (v : PyObj)
    (hne : k ≠ k2) (h : pySetItem env d k v = .ok d2) :
    dictLookup d2 k2 = dictLookup d k2 := by
  unfold pySetItem at h
  cases hc : env.convFail v with
  | some e => rw [hc] at h; cases h
  | none =>
    rw [hc] at h
    cases h
    exact dictLookup_pyDictSet_other d k k2 v hne

theorem buildParamStep_lookup_other (env : PyEnv) (job : Job) (d d2 : PyDict)
    (p : Parameter) (k : String) (hk : k ≠ p.id)
    (h : buildParamStep env job d p = .ok d2) : dictLookup d2 k = dictLookup d k := by
  cases p with
  | arrayOfStringsParam i dflt val =>
    simp only [buildParamStep] at h
    simp only [Parameter.id] at hk
    cases hres : resolved val dflt with
    | some v =>
      rw [hres] at h
      exact pySetItem_ok_lookup_other env d d2 i k _ (fun he => hk he.symm) h
    | none => rw [hres] at h; cases h; rfl
  | booleanParam i dflt val =>
    simp only [buildParamStep] at h
    simp only [Parameter.id] at hk
    cases hres : resolved val dflt with
    | some v =>
      rw [hres] at h
      exact pySetItem_ok_lookup_other env d d2 i k _ (fun he => hk he.symm) h
    | none => rw [hres] at h; cases h; rfl
  | credentialParam i dflt val =>
    simp only [buildParamStep] at h
    simp only [Parameter.id] at hk
    cases hres : resolved val dflt with
    | some ck =>
      simp only [hres] at h
      cases hrv : env.requestValue ck job with
      | ok rv =>
        rw [hrv] at h
        exact pySetItem_ok_lookup_other env d d2 i k _ (fun he => hk he.symm) h
      | error e => rw [hrv] at h; cases h; rfl
    | none => rw [hres] at h; cases h; rfl
  | integerParam i dflt val =>
    simp only [buildParamStep] at h
    simp only [Parameter.id] at hk
    cases hres : resolved val dflt with
    | some v =>
      rw [hres] at h
      exact pySetItem_ok_lookup_other env d d2 i k _ (fun he => hk he.symm) h
    | none => rw [hres] at h; cases h; rfl
  | requirementParam i dflt val =>
    simp only [buildParamStep] at h
    cases h; rfl
  | stringParam i dflt val =>
    simp only [buildParamStep] at h
    simp only [Parameter.id] at hk
    cases hres : resolved val dflt with
    | some v =>
      rw [hres] at h
      exact pySetItem_ok_lookup_other env d d2 i k _ (fun he => hk he.symm) h
    | none => rw [hres] at h; cases h; rfl

theorem buildParamStep_lookup_self (env : PyEnv) (job : Job) (d d2 : PyDict)
    (p : Parameter) (hv : p.hasValue = true)
    (h : buildParamStep env job d p = .ok d2) :
    dictLookup d2 p.id =
      (match marshalOfValue env job p with
       | some v => some v
       | none => dictLookup d p.id) := by
  cases p with
  | arrayOfStringsParam i dflt val =>
    simp only [Parameter.hasValue, Option.isSome_iff_exists] at hv
    obtain ⟨v, rfl⟩ := hv
    simp only [buildParamStep, resolved] at h
    simpa [marshalOfValue, Parameter.id] using
      pySetItem_ok_lookup_self env d d2 i _ h
  | booleanParam i dflt val =>
    simp only [Parameter.hasValue, Option.isSome_iff_exists] at hv
    obtain ⟨v, rfl⟩ := hv
    simp only [buildParamStep, resolved] at h
    simpa [marshalOfValue, Parameter.id] using
      pySetItem_ok_lookup_self env d d2 i _ h
  | credentialParam i dflt val =>
    simp only [Parameter.hasValue, Option.isSome_iff_exists] at hv
    obtain ⟨ck, rfl⟩ := hv
    simp only [buildParamStep, resolved] at h
    cases hrv : env.requestValue ck job with
    | ok rv =>
      rw [hrv] at h
      simpa [marshalOfValue, Parameter.id, hrv] using
        pySetItem_ok_lookup_self env d d2 i _ h
    | error e =>
      rw [hrv] at h
      cases h
      simp [marshalOfValue, Parameter.id, hrv]
  | integerParam i dflt val =>
    simp only [Parameter.hasValue, Option.isSome_iff_exists] at hv
    obtain ⟨v, rfl⟩ := hv
    simp only [buildParamStep, resolved] at h
    simpa [marshalOfValue, Parameter.id] using
      pySetItem_ok_lookup_self env d d2 i _ h
  | requirementParam i dflt val =>
    simp only [buildParamStep] at h
    cases h
    simp [marshalOfValue, Parameter.id]
  | stringParam i dflt val =>
    simp only [Parameter.hasValue, Option.isSome_iff_exists] at hv
    obtain ⟨v, rfl⟩ := hv
    simp only [buildParamStep, resolved] at h
    simpa [marshalOfValue, Parameter.id] using
      pySetItem_ok_lookup_self env d d2 i _ h

theorem buildParamsAux_append (env : PyEnv) (job : Job) (l1 l2 : List Parameter)
    (acc : PyDict) :
    buildParamsAux env job (l1 ++ l2) acc =
      (match buildParamsAux env job l1 acc with
       | .ok d => buildParamsAux env job l2 d
       | .error e => .error e) := by
  induction l1 generalizing acc with
  | nil => simp [buildParamsAux]
  | cons p rest ih =>
    simp only [List.cons_append, buildParamsAux]
    cases hs : buildParamStep env job acc p with
    | ok d2 => simp [hs, ih]
    | error e => simp [hs]

theorem buildParamsAux_lookup_notin (env : PyEnv) (job : Job) (l : List Parameter)
    (acc d : PyDict) (k : String)
    (h : buildParamsAux env job l acc = .ok d) (hk : k ∉ l.map Parameter.id) :
    dictLookup d k = dictLookup acc k := by
  induction l generalizing acc with
  | nil => cases h; rfl
  | cons p rest ih =>
    simp only [List.map_cons, List.mem_cons, not_or] at hk
    obtain ⟨hk1, hk2⟩ := hk
    simp only [buildParamsAux] at h
    cases hs : buildParamStep env job acc p with
    | ok d2 =>
      rw [hs] at h
      rw [ih d2 h hk2]
      exact buildParamStep_lookup_other env job acc d2 p k hk1 hs
    | error e => rw [hs] at h; cases h

theorem collectPaths_strs (paths : List String) :
    collectPaths (paths.map PyObj.str) = some paths := by
  induction paths with
  | nil => rfl
  | cons s rest ih => simp [collectPaths, ih]

theorem buildParamStep_skip (env : PyEnv) (job : Job) (d : PyDict) (p : Parameter)
    (h : (p.hasValue = false ∧ p.hasDefault = false) ∨ p.isRequirement = true) :
    buildParamStep env job d p = .ok d := by
  cases p with
  | arrayOfStringsParam i dflt val =>
    rcases h with ⟨hv, hd⟩ | hr
    · cases val with
      | some v => simp [Parameter.hasValue] at hv
      | none =>
        cases dflt with
        | some v => simp [Parameter.hasDefault] at hd
        | none => rfl
    · simp [Parameter.isRequirement] at hr
  | booleanParam i dflt val =>
    rcases h with ⟨hv, hd⟩ | hr
    · cases val with
      | some v => simp [Parameter.hasValue] at hv
      | none =>
        cases dflt with
        | some v => simp [Parameter.hasDefault] at hd
        | none => rfl
    · simp [Parameter.isRequirement] at hr
  | credentialParam i dflt val =>
    rcases h with ⟨hv, hd⟩ | hr
    · cases val with
      | some v => simp [Parameter.hasValue] at hv
      | none =>
        cases dflt with
        | some v => simp [Parameter.hasDefault] at hd
        | none => rfl
    · simp [Parameter.isRequirement] at hr
  | integerParam i dflt val =>
    rcases h with ⟨hv, hd⟩ | hr
    · cases val with
      | some v => simp [Parameter.hasValue] at hv
      | none =>
        cases dflt with
        | some v => simp [Parameter.hasDefault] at hd
        | none => rfl
    · simp [Parameter.isRequirement] at hr
  | requirementParam i dflt val => rfl
  | stringParam i dflt val =>
    rcases h with ⟨hv, hd⟩ | hr
    · cases val with
      | some v => simp [Parameter.hasValue] at hv
      | none =>
        cases dflt with
        | some v => simp [Parameter.hasDefault] at hd
        | none => rfl
    · simp [Parameter.isRequirement] at hr

theorem buildParamStep_cred_skip (env : PyEnv) (job : Job) (d : PyDict)
    (i : String) (dflt val : Option String)
    (h : (∃ k, resolved val dflt = some k ∧ ∃ e, env.requestValue k job = .error e) ∨
      resolved val dflt = none) :
    buildParamStep env job d (.credentialParam i dflt val) = .ok d := by
  rcases h with ⟨k, hk, e, he⟩ | hn
  · simp only [buildParamStep, hk, he]
  · simp only [buildParamStep, hn]

/-- Claim C2: for every parameter in a job whose identifiers are pairwise
distinct, when both a supplied value and a default are present, the entry
marshalled under that parameter identifier is exactly the marshalled
image of the supplied value (for a Credential, the collaborator
resolution of the supplied key): `marshalOfValue` is defined solely from
the value field, so the default never reaches the dictionary. -/
theorem build_parameters_value_precedence (env : PyEnv) (job : Job) (p : Parameter)
    (d : PyDict) (hmem : p ∈ job.parameters)
    (hnodup : (job.parameters.map Parameter.id).Nodup)
    (hv : p.hasValue = true) (_hd : p.hasDefault = true)
    (hok : build_parameters env job = .ok d) :
    dictLookup d p.id = marshalOfValue env job p := by
  obtain ⟨pre, post, hsplit⟩ := List.append_of_mem hmem
  rw [hsplit] at hnodup
  unfold build_parameters at hok
  rw [hsplit, buildParamsAux_append] at hok
  cases h1 : buildParamsAux env job pre [] with
  | error e => rw [h1] at hok; cases hok
  | ok d1 =>
    rw [h1] at hok
    simp only [buildParamsAux] at hok
    cases h2 : buildParamStep env job d1 p with
    | error e => rw [h2] at hok; cases hok
    | ok d2 =>
      rw [h2] at hok
      rw [List.map_append, List.map_cons, List.nodup_append] at hnodup
      obtain ⟨hn1, hn2, hdisj⟩ := hnodup
      have hpre : p.id ∉ pre.map Parameter.id :=
        fun hmem2 => hdisj hmem2 (List.mem_cons_self _ _)
      have hpost : p.id ∉ post.map Parameter.id := (List.nodup_cons.mp hn2).1
      have e1 : dictLookup d p.id = dictLookup d2 p.id :=
        buildParamsAux_lookup_notin env job post d2 d p.id hok hpost
      have e2 : dictLookup d1 p.id = dictLookup [] p.id :=
        buildParamsAux_lookup_notin env job pre [] d1 p.id h1 hpre
      have e3 := buildParamStep_lookup_self env job d1 d2 p hv h2
      rw [e1, e3]
      cases hm : marshalOfValue env job p with
      | some v => simp
      | none => simpa [dictLookup] using e2

/-- Claim C2 witness: one string parameter with value and default both
present marshals the value, not the default. -/
theorem build_parameters_value_precedence_witness :
    dictLookup [("x", PyObj.str "val")] "x" =
      marshalOfValue envOk jobW2 (.stringParam "x" (some "dflt") (some "val")) ∧
    marshalOfValue envOk jobW2 (.stringParam "x" (some "dflt") (some "val")) =
      some (.str "val") := by
  constructor
  · exact build_parameters_value_precedence envOk jobW2
      (.stringParam "x" (some "dflt") (some "val")) [("x", PyObj.str "val")]
      (by decide) (by decide) rfl rfl rfl
  · rfl

/-- Claim C3: a parameter with neither value nor default, or a
Requirement parameter, contributes no entry and no error: marshalling the
list with it equals marshalling the list without it. -/
theorem build_parameters_omits_empty (env : PyEnv) (job : Job)
    (pre post : List Parameter) (p : Parameter)
    (h : (p.hasValue = false ∧ p.hasDefault = false) ∨ p.isRequirement = true)
    (hsplit : job.parameters = pre ++ p :: post) :
    build_parameters env job = buildParamsAux env job (pre ++ post) [] := by
  unfold build_parameters
  rw [hsplit, buildParamsAux_append, buildParamsAux_append]
  cases h1 : buildParamsAux env job pre [] with
  | error e => rfl
  | ok d1 =>
    simp only [buildParamsAux, buildParamStep_skip env job d1 p h]

/-- Claim C3 witness: an integer parameter with neither value nor default
is omitted from the marshalled structure without an error. -/
theorem build_parameters_omits_empty_witness :
    build_parameters envOk jobW3 = buildParamsAux envOk jobW3 [] [] :=
  build_parameters_omits_empty envOk jobW3 [] [] (.integerParam "n" none none)
    (Or.inl ⟨rfl, rfl⟩) rfl

/-- Claim C5: a Credential parameter whose chosen key fails to resolve,
or which has neither value nor default, is omitted and marshalling of the
remaining parameters continues unchanged: the job is not aborted. -/
theorem build_parameters_credential_omitted (env : PyEnv) (job : Job)
    (pre post : List Parameter) (i : String) (dflt val : Option String)
    (h : (∃ k, resolved val dflt = some k ∧ ∃ e, env.requestValue k job = .error e) ∨
      resolved val dflt = none)
    (hsplit : job.parameters = pre ++ .credentialParam i dflt val :: post) :
    build_parameters env job = buildParamsAux env job (pre ++ post) [] := by
  unfold build_parameters
  rw [hsplit, buildParamsAux_append, buildParamsAux_append]
  cases h1 : buildParamsAux env job pre [] with
  | error e => rfl
  | ok d1 =>
    simp only [buildParamsAux, buildParamStep_cred_skip env job d1 i dflt val h]

/-- Claim C5 witness: a credential parameter whose key resolution fails
against the collaborator is omitted and causes no error. -/
theorem build_parameters_credential_omitted_witness :
    build_parameters envOk jobW5 = buildParamsAux envOk jobW5 [] [] :=
  build_parameters_credential_omitted envOk jobW5 [] [] "cred" none (some "KEY")
    (Or.inl ⟨"KEY", rfl, "no credential store", rfl⟩) rfl

/-- Claim C4: when compiling succeeds and marshalling fails, process
returns the typed Error outcome carrying the engine textual
representation of the error, for every channel (even a missing one) and
every script entry point: the entry point is never called. -/
theorem process_marshalling_error (env : PyEnv)
    (procFn : CallbackHandle → PyDict → Except PyErr PyObj)
    (channel : Option Channel) (job : Job) (jr : JobResult) (e : PyErr)
    (hc : env.compile = .ok ()) (hb : build_parameters env job = .error e) :
    process env procFn channel job jr =
      .error (.processingError ((jr.with_status .error).with_message e.reprText)) := by
  simp only [process, hc, hb]

/-- Claim C4 witness: an engine whose value conversion fails on insertion
makes process return the typed Error with the engine text, before the
channel is even unwrapped. -/
theorem process_marshalling_error_witness :
    process envFail procRaisesTb none jobW4 jrInit =
      .error (.processingError ⟨[], .error, some "TypeError: cannot convert"⟩) :=
  process_marshalling_error envFail procRaisesTb none jobW4 jrInit
    ⟨"TypeError: cannot convert", none⟩ rfl rfl

/-- Claim C1 (amended): when the script entry point raises, the message
of the Error JobResult is the textual representation of the exception,
the fixed separator, and either the formatted frame text when a traceback
is attached or the fixed marker string of the source, which reads
literally: Unknown python error, no stackstrace. -/
theorem process_exception_message (env : PyEnv)
    (procFn : CallbackHandle → PyDict → Except PyErr PyObj)
    (ch : Channel) (job : Job) (jr : JobResult) (d : PyDict) (perr : PyErr)
    (hc : env.compile = .ok ()) (hb : build_parameters env job = .ok d)
    (hp : procFn ⟨ch, job⟩ d = .error perr) :
    process env procFn (some ch) job jr =
      .error (.processingError ((jr.with_status .error).with_message
        (perr.reprText ++ "\n\nStacktrace:\n" ++
          (match perr.ptraceback with
           | some tb => tb
           | none => "Unknown python error, no stackstrace")))) := by
  simp only [process, hc, hb, hp]

/-- Claim C1 witness: an exception with an attached traceback yields the
message holding both the representation and the frame text. -/
theorem process_exception_message_witness :
    process envOk procRaisesTb (some chan0) jobEmpty jrInit =
      .error (.processingError ⟨[], .error,
        some "ValueError: bad input\n\nStacktrace:\n  File worker.py, line 3, in process"⟩) :=
  process_exception_message envOk procRaisesTb chan0 jobEmpty jrInit []
    ⟨"ValueError: bad input", some "  File worker.py, line 3, in process"⟩ rfl rfl rfl

/-- Claim C1 counterexample: when no traceback is attached, the produced
message does not contain the text: no stacktrace. The fixed marker of the
source spells it: no stackstrace. -/
theorem process_no_stacktrace_marker_cex :
    process envOk procRaises (some chan0) jobEmpty jrInit =
      .error (.processingError ⟨[], .error,
        some "RuntimeError: boom\n\nStacktrace:\nUnknown python error, no stackstrace"⟩) ∧
    containsSub "RuntimeError: boom\n\nStacktrace:\nUnknown python error, no stackstrace"
      "no stacktrace" = false := by
  exact ⟨rfl, by decide⟩

/-- Claim C6: a normal return from the script entry point yields status
Completed; a return shaped as a sequence of path strings attaches those
paths in order, any other shape leaves the destination paths empty. -/
theorem process_round_trip (env : PyEnv)
    (procFn : CallbackHandle → PyDict → Except PyErr PyObj)
    (ch : Channel) (job : Job) (jr : JobResult) (resp : PyObj) (d : PyDict)
    (hc : env.compile = .ok ()) (hb : build_parameters env job = .ok d)
    (hp : procFn ⟨ch, job⟩ d = .ok resp) (hjr : jr.destination_paths = []) :
    ∃ r, process env procFn (some ch) job jr = .ok r ∧ r.status = .completed ∧
      (∀ paths, resp = .list (paths.map PyObj.str) → r.destination_paths = paths) ∧
      (get_destination_paths resp = none → r.destination_paths = []) := by
  cases hgd : get_destination_paths resp with
  | some ps =>
    refine ⟨(jr.with_destination_paths ps).with_status .completed, ?_, rfl, ?_, ?_⟩
    · simp only [process, hc, hb, hp, hgd]
    · intro paths hresp
      subst hresp
      rw [get_destination_paths, collectPaths_strs] at hgd
      cases hgd
      rfl
    · intro hnone
      simp [hgd] at hnone
  | none =>
    refine ⟨jr.with_status .completed, ?_, rfl, ?_, fun _ => ?_⟩
    · simp only [process, hc, hb, hp, hgd]
    · intro paths hresp
      subst hresp
      rw [get_destination_paths, collectPaths_strs] at hgd
      cases hgd
    · simpa [JobResult.with_status] using hjr

/-- Claim C6 witness: a script returning one path string yields that path
and status Completed. -/
theorem process_round_trip_witness :
    ∃ r, process envOk procReturnsPaths (some chan0) jobEmpty jrInit = .ok r ∧
      r.status = .completed ∧
      (∀ paths, PyObj.list [PyObj.str "/tmp/out.mov"] = .list (paths.map PyObj.str) →
        r.destination_paths = paths) ∧
      (get_destination_paths (.list [PyObj.str "/tmp/out.mov"]) = none →
        r.destination_paths = []) :=
  process_round_trip envOk procReturnsPaths chan0 jobEmpty jrInit
    (.list [.str "/tmp/out.mov"]) [] rfl rfl rfl rfl

/-- Claim C7 (amended): when the module compiles and a channel is
supplied, every invocation produces exactly one terminal outcome: a
Completed JobResult on a normal return, or a typed Error JobResult with
status Error on any failure, with no panic. -/
theorem process_terminal (env : PyEnv)
    (procFn : CallbackHandle → PyDict → Except PyErr PyObj)
    (ch : Channel) (job : Job) (jr : JobResult)
    (hc : env.compile = .ok ()) :
    (∃ r, process env procFn (some ch) job jr = .ok r ∧ r.status = .completed) ∨
    (∃ r, process env procFn (some ch) job jr = .error (.processingError r) ∧
      r.status = .error) := by
  cases hb : build_parameters env job with
  | error e =>
    right
    exact ⟨(jr.with_status .error).with_message e.reprText,
      by simp only [process, hc, hb], rfl⟩
  | ok d =>
    cases hp : procFn ⟨ch, job⟩ d with
    | ok resp =>
      left
      cases hgd : get_destination_paths resp with
      | some ps =>
        exact ⟨(jr.with_destination_paths ps).with_status .completed,
          by simp only [process, hc, hb, hp, hgd], rfl⟩
      | none =>
        exact ⟨jr.with_status .completed,
          by simp only [process, hc, hb, hp, hgd], rfl⟩
    | error perr =>
      right
      refine ⟨(jr.with_status .error).with_message
        (perr.reprText ++ "\n\nStacktrace:\n" ++
          (match perr.ptraceback with
           | some tb => tb
           | none => "Unknown python error, no stackstrace")), ?_, rfl⟩
      simp only [process, hc, hb, hp]

/-- Claim C7 witness: a compiling module and a supplied channel give one
terminal outcome. -/
theorem process_terminal_witness :
    (∃ r, process envOk procReturnsPaths (some chan0) jobEmpty jrInit = .ok r ∧
      r.status = .completed) ∨
    (∃ r, process envOk procReturnsPaths (some chan0) jobEmpty jrInit =
      .error (.processingError r) ∧ r.status = .error) :=
  process_terminal envOk procReturnsPaths chan0 jobEmpty jrInit rfl

/-- Claim C7 counterexample: a module that fails to compile makes process
panic instead of producing a typed Error outcome. -/
theorem process_compile_panic_cex :
    process envBadCompile procReturnsPaths (some chan0) jobEmpty jrInit =
      .panicked "unable to create the python module" := rfl

/-- Claim C8: the version text returned by the module is parsed as a
semantic version: 1.2.3 gives major 1, minor 2, patch 3; any text that is
not a parseable semantic version, such as not-a-version, aborts startup
fatally instead of becoming a per-job error. -/
theorem get_version_semver :
    get_version "1.2.3" = .ok ⟨1, 2, 3⟩ ∧
    semverParse "not-a-version" = none ∧
    ∀ s, semverParse s = none →
      get_version s = .fatal "unable to parse version (please use SemVer format)" := by
  refine ⟨by decide, by decide, ?_⟩
  intro s h
  unfold get_version
  rw [h]

/-- Claim C8 witness: the unparseable text aborts startup fatally. -/
theorem get_version_semver_witness :
    get_version "not-a-version" =
      .fatal "unable to parse version (please use SemVer format)" :=
  get_version_semver.2.2 "not-a-version" (by decide)

/-- Claim C9: the progress report operation of the callback handle
returns true exactly when the underlying publish succeeded and false
exactly when it failed; it is a total boolean function, so a failure is
reported only as false and never interrupts the script. -/
theorem publish_job_progression_contract
    (publish : Channel → Job → Nat → Except String Unit)
    (self : CallbackHandle) (value : Nat) :
    (CallbackHandle.publish_job_progression publish self value = true ↔
      publish self.channel self.job value = .ok ()) ∧
    (CallbackHandle.publish_job_progression publish self value = false ↔
      ∃ e, publish self.channel self.job value = .error e) := by
  cases hp : publish self.channel self.job value with
  | ok u =>
    cases u
    simp [CallbackHandle.publish_job_progression, exceptIsOk, hp]
  | error e =>
    simp [CallbackHandle.publish_job_progression, exceptIsOk, hp]

/-- Claim C10: with a compiling module and successfully marshalled
parameters, calling process with no channel panics on the unwrap while
constructing the callback handle, for every script entry point: the entry
point is never invoked and no typed Error is returned. -/
theorem process_requires_channel (env : PyEnv)
    (procFn : CallbackHandle → PyDict → Except PyErr PyObj)
    (job : Job) (jr : JobResult) (d : PyDict)
    (hc : env.compile = .ok ()) (hb : build_parameters env job = .ok d) :
    process env procFn none job jr =
      .panicked "called Option::unwrap on a None value" := by
  simp only [process, hc, hb]

/-- Claim C10 witness: a concrete job marshalling successfully panics
when no channel is supplied. -/
theorem process_requires_channel_witness :
    process envOk procRaisesTb none jobEmpty jrInit =
      .panicked "called Option::unwrap on a None value" :=
  process_requires_channel envOk procRaisesTb jobEmpty jrInit [] rfl rfl

end PyWorker
